import Mathlib

/-!
Verification of the IEEE 802.11 frame encoder/decoder core of libtins
(src/include/dot11.h) against its natural-language specification.

The development shallowly embeds the data model of dot11.h: struct layouts,
enum constants and the inline member functions are transcribed from the
header; member functions whose bodies live in the (absent) implementation
file are modelled from the specification, and each such definition is marked
with a doc comment starting with the words Modelled from the spec.
Machine integers are represented as Nat with explicit reductions mod 256 at
byte boundaries; buffers are lists of byte values.
-/

/-! ## Byte-level little-endian writers and readers -/

/-- Writes a uint8 value as one byte (little-endian write primitive of the
byte cursor component; values are reduced mod 256 as by uint8_t storage). -/
def wrU8 (x : Nat) : List Nat := [x % 256]

/-- Writes a uint16 value as two bytes, least significant first. -/
def wrU16 (x : Nat) : List Nat := [x % 256, x / 256 % 256]

/-- Writes a uint32 value as four bytes, least significant first. -/
def wrU32 (x : Nat) : List Nat :=
  [x % 256, x / 256 % 256, x / 65536 % 256, x / 16777216 % 256]

/-- Writes a uint64 value as eight bytes, least significant first. -/
def wrU64 (x : Nat) : List Nat :=
  [x % 256, x / 256 % 256, x / 65536 % 256, x / 16777216 % 256,
   x / 4294967296 % 256, x / 1099511627776 % 256,
   x / 281474976710656 % 256, x / 72057594037927936 % 256]

/-- Reads one byte off the front of a buffer. Fails (Truncated) on an empty
buffer. -/
def rdU8 : List Nat → Option (Nat × List Nat)
  | b :: r => some (b, r)
  | [] => none

/-- Reads a little-endian uint16 off the front of a buffer. -/
def rdU16 : List Nat → Option (Nat × List Nat)
  | b0 :: b1 :: r => some (b0 + 256 * b1, r)
  | _ => none

/-- Reads a little-endian uint32 off the front of a buffer. -/
def rdU32 : List Nat → Option (Nat × List Nat)
  | b0 :: b1 :: b2 :: b3 :: r =>
      some (b0 + 256 * b1 + 65536 * b2 + 16777216 * b3, r)
  | _ => none

/-- Reads a little-endian uint64 off the front of a buffer. -/
def rdU64 : List Nat → Option (Nat × List Nat)
  | b0 :: b1 :: b2 :: b3 :: b4 :: b5 :: b6 :: b7 :: r =>
      some (b0 + 256 * b1 + 65536 * b2 + 16777216 * b3 + 4294967296 * b4 +
            1099511627776 * b5 + 281474976710656 * b6 +
            72057594037927936 * b7, r)
  | _ => none

theorem rdU8_wr (x : Nat) (h : x < 256) (rest : List Nat) :
    rdU8 (wrU8 x ++ rest) = some (x, rest) := by
  simp [wrU8, rdU8, Nat.mod_eq_of_lt h]

theorem rdU16_wr (x : Nat) (h : x < 65536) (rest : List Nat) :
    rdU16 (wrU16 x ++ rest) = some (x, rest) := by
  simp only [wrU16, rdU16, List.cons_append, List.nil_append]
  have hx : x % 256 + 256 * (x / 256 % 256) = x := by omega
  rw [hx]

theorem rdU32_wr (x : Nat) (h : x < 4294967296) (rest : List Nat) :
    rdU32 (wrU32 x ++ rest) = some (x, rest) := by
  simp only [wrU32, rdU32, List.cons_append, List.nil_append]
  have hx : x % 256 + 256 * (x / 256 % 256) + 65536 * (x / 65536 % 256) +
      16777216 * (x / 16777216 % 256) = x := by omega
  rw [hx]

theorem rdU64_wr (x : Nat) (h : x < 18446744073709551616) (rest : List Nat) :
    rdU64 (wrU64 x ++ rest) = some (x, rest) := by
  simp only [wrU64, rdU64, List.cons_append, List.nil_append]
  have hx : x % 256 + 256 * (x / 256 % 256) + 65536 * (x / 65536 % 256) +
      16777216 * (x / 16777216 % 256) + 4294967296 * (x / 4294967296 % 256) +
      1099511627776 * (x / 1099511627776 % 256) +
      281474976710656 * (x / 281474976710656 % 256) +
      72057594037927936 * (x / 72057594037927936 % 256) = x := by omega
  rw [hx]

/-! ## MAC address (six-byte value, uint8_t addr[6] in the source) -/

/-- Six-byte hardware address, mirroring the uint8_t[6] arrays of the
source (addr1 of ieee80211_header, addr2/addr3 of the extended headers). -/
structure MacAddr where
  a0 : Nat
  a1 : Nat
  a2 : Nat
  a3 : Nat
  a4 : Nat
  a5 : Nat
deriving DecidableEq, Repr

/-- Writes the six bytes of a MAC address in order. -/
def wrMac (m : MacAddr) : List Nat := [m.a0, m.a1, m.a2, m.a3, m.a4, m.a5]

/-- Reads six bytes as a MAC address. -/
def rdMac : List Nat → Option (MacAddr × List Nat)
  | b0 :: b1 :: b2 :: b3 :: b4 :: b5 :: r => some (⟨b0, b1, b2, b3, b4, b5⟩, r)
  | _ => none

theorem rdMac_wr (m : MacAddr) (rest : List Nat) :
    rdMac (wrMac m ++ rest) = some (m, rest) := rfl

/-- Bytewise legality of a MAC address value. -/
def legalMac (m : MacAddr) : Bool :=
  decide (m.a0 < 256) && decide (m.a1 < 256) && decide (m.a2 < 256) &&
  decide (m.a3 < 256) && decide (m.a4 < 256) && decide (m.a5 < 256)

/-! ## Frame Control flag bits

The control member of ieee80211_header packs, after the protocol, type and
subtype fields, eight single-bit flags in the order to_ds, from_ds,
more_frag, retry, power_mgmt, more_data, wep, order; on a little-endian
host the first declared field occupies the least significant bit, so these
flags form the second byte of the frame control word, to_ds in bit 0. -/

/-- Flag bits of the 802.11 frame control word (second byte). -/
structure Flags where
  to_ds : Bool
  from_ds : Bool
  more_frag : Bool
  retry : Bool
  power_mgmt : Bool
  more_data : Bool
  wep : Bool
  order : Bool
deriving DecidableEq, Repr

/-- Packs the eight flags into the second frame-control byte, to_ds in the
least significant bit, following the bitfield declaration order. -/
def Flags.toByte (f : Flags) : Nat :=
  f.to_ds.toNat + 2 * f.from_ds.toNat + 4 * f.more_frag.toNat +
  8 * f.retry.toNat + 16 * f.power_mgmt.toNat + 32 * f.more_data.toNat +
  64 * f.wep.toNat + 128 * f.order.toNat

/-- Unpacks the second frame-control byte into the eight flags. -/
def Flags.ofByte (b : Nat) : Flags :=
  ⟨b % 2 = 1, b / 2 % 2 = 1, b / 4 % 2 = 1, b / 8 % 2 = 1,
   b / 16 % 2 = 1, b / 32 % 2 = 1, b / 64 % 2 = 1, b / 128 % 2 = 1⟩

theorem Flags.ofByte_toByte (f : Flags) : Flags.ofByte (Flags.toByte f) = f := by
  obtain ⟨b0, b1, b2, b3, b4, b5, b6, b7⟩ := f
  cases b0 <;> cases b1 <;> cases b2 <;> cases b3 <;>
    cases b4 <;> cases b5 <;> cases b6 <;> cases b7 <;> rfl

/-! ## Tagged option store (Dot11::Dot11Option, Dot11::_options) -/

/-- Tagged option of a Dot11 frame, mirroring struct Dot11Option: an option
number and the owned copy of the value bytes. The length byte of the wire
form always equals the size of the stored value. -/
structure Dot11Option where
  option : Nat
  value : List Nat
deriving DecidableEq, Repr

/-- Modelled from the spec: body of Dot11::add_tagged_option (declared in
dot11.h, defined in the absent implementation file): appends a new option,
copying len bytes of the value; the option list is kept in insertion order.
The len parameter has C type uint8_t, so a length passed by a caller is
reduced mod 256 at the call boundary before the copy. -/
def Dot11.add_tagged_option (opts : List Dot11Option) (opt : Nat) (len : Nat)
    (val : List Nat) : List Dot11Option :=
  opts ++ [⟨opt, val.take (len % 256)⟩]

/-- Modelled from the spec: body of Dot11::search_option (declared in
dot11.h, defined in the absent implementation file): linear scan of the
option list, returning the first option whose number matches, or none. -/
def Dot11.search_option (opts : List Dot11Option) (opt : Nat) : Option Dot11Option :=
  match opts with
  | [] => none
  | o :: rest => if o.option = opt then some o else Dot11.search_option rest opt

/-- Wire form of one tagged option: tag, length byte, value bytes. -/
def wrOption (o : Dot11Option) : List Nat :=
  o.option :: o.value.length :: o.value

/-- Wire form of the option chain, in insertion order. -/
def wrOptions : List Dot11Option → List Nat
  | [] => []
  | o :: os => wrOption o ++ wrOptions os

/-- Serialized size of the option chain: two header bytes plus the value
length for each option. -/
def options_size : List Dot11Option → Nat
  | [] => 0
  | o :: os => 2 + o.value.length + options_size os

theorem wrOptions_length (os : List Dot11Option) :
    (wrOptions os).length = options_size os := by
  induction os with
  | nil => rfl
  | cons o os ih => simp [wrOptions, options_size, wrOption, ih]; omega

/-- Modelled from the spec: the tagged-parameter parser
(Dot11::parse_tagged_parameters, defined in the absent implementation
file): reads tag, length and value repeatedly until the buffer is
exhausted, failing (Truncated) when a declared length exceeds the
remaining buffer or a lone tag byte is left. -/
def rdOptions (buf : List Nat) : Option (List Dot11Option) :=
  match buf with
  | [] => some []
  | [_] => none
  | t :: l :: rest =>
    if l ≤ rest.length then
      match rdOptions (rest.drop l) with
      | some os => some (⟨t, rest.take l⟩ :: os)
      | none => none
    else none
termination_by buf.length
decreasing_by simp [List.length_drop]; omega

theorem rdOptions_wr (os : List Dot11Option) : rdOptions (wrOptions os) = some os := by
  induction os with
  | nil => rw [show wrOptions [] = [] from rfl, rdOptions]
  | cons o os ih =>
    obtain ⟨t, v⟩ := o
    show rdOptions (t :: v.length :: (v ++ wrOptions os)) = _
    rw [rdOptions]
    simp only [List.length_append, List.drop_left, List.take_left, ih]
    rw [if_pos (by omega)]

/-- Bytewise legality of an option list: each value is at most 255 bytes
long (the wire length field is a single byte) and holds byte values. -/
def legalOptions (os : List Dot11Option) : Bool :=
  os.all fun o =>
    decide (o.option < 256) && decide (o.value.length ≤ 255) &&
    o.value.all fun b => decide (b < 256)

/-! ## Frame data model

Modelled from the spec (the parsing and serialization bodies of the frame
classes live in the absent implementation file; the struct layouts below
are transcribed from dot11.h): a typed frame value is one of the variants
of section 2 of the specification, each owning the common MAC header, the
variant-specific extended header and fixed parameters, the tagged option
list for management frames, and the child payload for data frames. -/

/-- Common MAC header fields present on every frame: the frame-control
protocol version and flag bits, the duration/id field and addr1. The type
and subtype fields of the frame-control word are not stored: serialization
forces them to the canonical values of the variant. -/
structure CommonHeader where
  protocol : Nat
  flags : Flags
  duration_id : Nat
  addr1 : MacAddr
deriving DecidableEq, Repr

/-- Sequence-control field: fragment number (4 bits, low nibble of the
first byte on the wire) and sequence number (12 bits). -/
structure SeqControl where
  frag : Nat
  seq : Nat
deriving DecidableEq, Repr

/-- Extended header of management and data frames: addr2, addr3 and the
sequence-control word (struct ExtendedHeader in dot11.h). -/
structure ExtHeader where
  addr2 : MacAddr
  addr3 : MacAddr
  sc : SeqControl
deriving DecidableEq, Repr

/-- Sixteen-bit block-ack bitmap storage of Dot11BlockAck, mirroring the
uint8_t _bitmap[8] member: exactly eight bytes. -/
structure Bitmap8 where
  b0 : Nat
  b1 : Nat
  b2 : Nat
  b3 : Nat
  b4 : Nat
  b5 : Nat
  b6 : Nat
  b7 : Nat
deriving DecidableEq, Repr

/-- Writes the eight bitmap bytes in order. -/
def wrBitmap (b : Bitmap8) : List Nat :=
  [b.b0, b.b1, b.b2, b.b3, b.b4, b.b5, b.b6, b.b7]

/-- Reads eight bytes as a block-ack bitmap. -/
def rdBitmap : List Nat → Option (Bitmap8 × List Nat)
  | b0 :: b1 :: b2 :: b3 :: b4 :: b5 :: b6 :: b7 :: r =>
      some (⟨b0, b1, b2, b3, b4, b5, b6, b7⟩, r)
  | _ => none

theorem rdBitmap_wr (b : Bitmap8) (rest : List Nat) :
    rdBitmap (wrBitmap b ++ rest) = some (b, rest) := rfl

/-- Typed 802.11 frame value: one constructor per frame variant of the
specification. Management variants carry the extended header, their fixed
parameters and the tagged option list; data variants carry the extended
header, the optional addr4 and the uninterpreted child payload; control
carry the target address and fixed parameters where the variant has them. -/
inductive Frame where
  | assocReq (c : CommonHeader) (e : ExtHeader) (cap listen_interval : Nat)
      (opts : List Dot11Option)
  | assocResp (c : CommonHeader) (e : ExtHeader) (cap status_code aid : Nat)
      (opts : List Dot11Option)
  | reassocReq (c : CommonHeader) (e : ExtHeader) (cap listen_interval : Nat)
      (current_ap : MacAddr) (opts : List Dot11Option)
  | reassocResp (c : CommonHeader) (e : ExtHeader) (cap status_code aid : Nat)
      (opts : List Dot11Option)
  | probeReq (c : CommonHeader) (e : ExtHeader) (opts : List Dot11Option)
  | probeResp (c : CommonHeader) (e : ExtHeader) (timestamp interval cap : Nat)
      (opts : List Dot11Option)
  | beacon (c : CommonHeader) (e : ExtHeader) (timestamp interval cap : Nat)
      (opts : List Dot11Option)
  | disassoc (c : CommonHeader) (e : ExtHeader) (reason_code : Nat)
      (opts : List Dot11Option)
  | auth (c : CommonHeader) (e : ExtHeader)
      (auth_algorithm auth_seq_number status_code : Nat)
      (opts : List Dot11Option)
  | deauth (c : CommonHeader) (e : ExtHeader) (reason_code : Nat)
      (opts : List Dot11Option)
  | dataFrame (c : CommonHeader) (e : ExtHeader) (addr4 : Option MacAddr)
      (payload : List Nat)
  | qosData (c : CommonHeader) (e : ExtHeader) (addr4 : Option MacAddr)
      (qos_control : Nat) (payload : List Nat)
  | blockAckReq (c : CommonHeader) (ta : MacAddr) (bar_control start_sequence : Nat)
  | blockAck (c : CommonHeader) (ta : MacAddr) (bar_control start_sequence : Nat)
      (bitmap : Bitmap8)
  | psPoll (c : CommonHeader) (ta : MacAddr)
  | rts (c : CommonHeader) (ta : MacAddr)
  | cts (c : CommonHeader)
  | ack (c : CommonHeader)
  | cfEnd (c : CommonHeader) (ta : MacAddr)
  | cfEndAck (c : CommonHeader) (ta : MacAddr)
deriving DecidableEq, Repr

/-- Writes the common MAC header with the frame-control type and subtype
forced to the given canonical values: frame-control byte 0 holds protocol
in bits 0 and 1, type in bits 2 and 3 and subtype in the high nibble;
byte 1 holds the flags; then duration/id and addr1 follow. -/
def wrCommon (c : CommonHeader) (typ st : Nat) : List Nat :=
  (c.protocol + 4 * typ + 16 * st) :: Flags.toByte c.flags ::
    (wrU16 c.duration_id ++ wrMac c.addr1)

/-- Writes the extended header: addr2, addr3 and the sequence-control
word, fragment number in the low four bits. -/
def wrExt (e : ExtHeader) : List Nat :=
  wrMac e.addr2 ++ wrMac e.addr3 ++ wrU16 (e.sc.frag + 16 * e.sc.seq)

/-- Writes the optional addr4 of a data frame: present on the wire exactly
when both DS flags are set. -/
def wrAddr4 (fl : Flags) (a4 : Option MacAddr) : List Nat :=
  if fl.to_ds && fl.from_ds then wrMac (a4.getD ⟨0, 0, 0, 0, 0, 0⟩) else []

/-- Modelled from the spec: serialization (PDU::serialize through
Dot11::write_serialization, write_ext_header and write_fixed_parameters,
defined in the absent implementation file). Writes the MAC header with the
canonical type and subtype of the variant, then the extended header, the
fixed parameters of the variant, the tagged option chain in insertion
order, and finally the child payload. -/
def serialize : Frame → List Nat
  | Frame.assocReq c e cap li os =>
      wrCommon c 0 0 ++ wrExt e ++ wrU16 cap ++ wrU16 li ++ wrOptions os
  | Frame.assocResp c e cap st aid os =>
      wrCommon c 0 1 ++ wrExt e ++ wrU16 cap ++ wrU16 st ++ wrU16 aid ++ wrOptions os
  | Frame.reassocReq c e cap li ap os =>
      wrCommon c 0 2 ++ wrExt e ++ wrU16 cap ++ wrU16 li ++ wrMac ap ++ wrOptions os
  | Frame.reassocResp c e cap st aid os =>
      wrCommon c 0 3 ++ wrExt e ++ wrU16 cap ++ wrU16 st ++ wrU16 aid ++ wrOptions os
  | Frame.probeReq c e os =>
      wrCommon c 0 4 ++ wrExt e ++ wrOptions os
  | Frame.probeResp c e ts iv cap os =>
      wrCommon c 0 5 ++ wrExt e ++ wrU64 ts ++ wrU16 iv ++ wrU16 cap ++ wrOptions os
  | Frame.beacon c e ts iv cap os =>
      wrCommon c 0 8 ++ wrExt e ++ wrU64 ts ++ wrU16 iv ++ wrU16 cap ++ wrOptions os
  | Frame.disassoc c e rc os =>
      wrCommon c 0 10 ++ wrExt e ++ wrU16 rc ++ wrOptions os
  | Frame.auth c e alg sq st os =>
      wrCommon c 0 11 ++ wrExt e ++ wrU16 alg ++ wrU16 sq ++ wrU16 st ++ wrOptions os
  | Frame.deauth c e rc os =>
      wrCommon c 0 12 ++ wrExt e ++ wrU16 rc ++ wrOptions os
  | Frame.dataFrame c e a4 payload =>
      wrCommon c 2 0 ++ wrExt e ++ wrAddr4 c.flags a4 ++ payload
  | Frame.qosData c e a4 qc payload =>
      wrCommon c 2 8 ++ wrExt e ++ wrAddr4 c.flags a4 ++ wrU16 qc ++ payload
  | Frame.blockAckReq c ta bar ssc =>
      wrCommon c 1 8 ++ wrMac ta ++ wrU16 bar ++ wrU16 ssc
  | Frame.blockAck c ta bar ssc bm =>
      wrCommon c 1 9 ++ wrMac ta ++ wrU16 bar ++ wrU16 ssc ++ wrBitmap bm
  | Frame.psPoll c ta => wrCommon c 1 10 ++ wrMac ta
  | Frame.rts c ta => wrCommon c 1 11 ++ wrMac ta
  | Frame.cts c => wrCommon c 1 12
  | Frame.ack c => wrCommon c 1 13
  | Frame.cfEnd c ta => wrCommon c 1 14 ++ wrMac ta
  | Frame.cfEndAck c ta => wrCommon c 1 15 ++ wrMac ta

/-! ## Parsing (top-down dispatch on type and subtype) -/

/-- Parses the fixed parameters, option chain and payload of a management
beacon frame body. -/
def parseBeacon (c : CommonHeader) (e : ExtHeader) (r : List Nat) : Option Frame :=
  match rdU64 r with
  | some (ts, r1) =>
    match rdU16 r1 with
    | some (iv, r2) =>
      match rdU16 r2 with
      | some (cap, r3) =>
        match rdOptions r3 with
        | some os => some (Frame.beacon c e ts iv cap os)
        | none => none
      | none => none
    | none => none
  | none => none

/-- Parses the body of a probe response: same fixed parameters as a beacon. -/
def parseProbeResp (c : CommonHeader) (e : ExtHeader) (r : List Nat) : Option Frame :=
  match rdU64 r with
  | some (ts, r1) =>
    match rdU16 r1 with
    | some (iv, r2) =>
      match rdU16 r2 with
      | some (cap, r3) =>
        match rdOptions r3 with
        | some os => some (Frame.probeResp c e ts iv cap os)
        | none => none
      | none => none
    | none => none
  | none => none

/-- Parses the body of an association request. -/
def parseAssocReq (c : CommonHeader) (e : ExtHeader) (r : List Nat) : Option Frame :=
  match rdU16 r with
  | some (cap, r1) =>
    match rdU16 r1 with
    | some (li, r2) =>
      match rdOptions r2 with
      | some os => some (Frame.assocReq c e cap li os)
      | none => none
    | none => none
  | none => none

/-- Parses the body of an association response. -/
def parseAssocResp (c : CommonHeader) (e : ExtHeader) (r : List Nat) : Option Frame :=
  match rdU16 r with
  | some (cap, r1) =>
    match rdU16 r1 with
    | some (st, r2) =>
      match rdU16 r2 with
      | some (aid, r3) =>
        match rdOptions r3 with
        | some os => some (Frame.assocResp c e cap st aid os)
        | none => none
      | none => none
    | none => none
  | none => none

/-- Parses the body of a reassociation request. -/
def parseReassocReq (c : CommonHeader) (e : ExtHeader) (r : List Nat) : Option Frame :=
  match rdU16 r with
  | some (cap, r1) =>
    match rdU16 r1 with
    | some (li, r2) =>
      match rdMac r2 with
      | some (ap, r3) =>
        match rdOptions r3 with
        | some os => some (Frame.reassocReq c e cap li ap os)
        | none => none
      | none => none
    | none => none
  | none => none

/-- Parses the body of a reassociation response. -/
def parseReassocResp (c : CommonHeader) (e : ExtHeader) (r : List Nat) : Option Frame :=
  match rdU16 r with
  | some (cap, r1) =>
    match rdU16 r1 with
    | some (st, r2) =>
      match rdU16 r2 with
      | some (aid, r3) =>
        match rdOptions r3 with
        | some os => some (Frame.reassocResp c e cap st aid os)
        | none => none
      | none => none
    | none => none
  | none => none

/-- Parses the body of an authentication frame. -/
def parseAuth (c : CommonHeader) (e : ExtHeader) (r : List Nat) : Option Frame :=
  match rdU16 r with
  | some (alg, r1) =>
    match rdU16 r1 with
    | some (sq, r2) =>
      match rdU16 r2 with
      | some (st, r3) =>
        match rdOptions r3 with
        | some os => some (Frame.auth c e alg sq st os)
        | none => none
      | none => none
    | none => none
  | none => none

/-- Parses the body of a deauthentication frame. -/
def parseDeauth (c : CommonHeader) (e : ExtHeader) (r : List Nat) : Option Frame :=
  match rdU16 r with
  | some (rc, r1) =>
    match rdOptions r1 with
    | some os => some (Frame.deauth c e rc os)
    | none => none
  | none => none

/-- Parses the body of a disassociation frame. -/
def parseDisassoc (c : CommonHeader) (e : ExtHeader) (r : List Nat) : Option Frame :=
  match rdU16 r with
  | some (rc, r1) =>
    match rdOptions r1 with
    | some os => some (Frame.disassoc c e rc os)
    | none => none
  | none => none

/-- Parses the body of a probe request: only the option chain. -/
def parseProbeReq (c : CommonHeader) (e : ExtHeader) (r : List Nat) : Option Frame :=
  match rdOptions r with
  | some os => some (Frame.probeReq c e os)
  | none => none

/-- Dispatches a management frame body on the management subtype (values
from enum ManagementSubtypes of dot11.h). -/
def parseMgmtBody (st : Nat) (c : CommonHeader) (e : ExtHeader) (r : List Nat) :
    Option Frame :=
  if st = 0 then parseAssocReq c e r
  else if st = 1 then parseAssocResp c e r
  else if st = 2 then parseReassocReq c e r
  else if st = 3 then parseReassocResp c e r
  else if st = 4 then parseProbeReq c e r
  else if st = 5 then parseProbeResp c e r
  else if st = 8 then parseBeacon c e r
  else if st = 10 then parseDisassoc c e r
  else if st = 11 then parseAuth c e r
  else if st = 12 then parseDeauth c e r
  else none

/-- Parses the management extended header (addr2, addr3, sequence control)
and hands the rest to the body parser. -/
def parseMgmt (st : Nat) (c : CommonHeader) (buf : List Nat) : Option Frame :=
  match rdMac buf with
  | some (a2, r1) =>
    match rdMac r1 with
    | some (a3, r2) =>
      match rdU16 r2 with
      | some (sc, r3) => parseMgmtBody st c ⟨a2, a3, ⟨sc % 16, sc / 16⟩⟩ r3
      | none => none
    | none => none
  | none => none

/-- Parses a data frame: extended header, addr4 when both DS flags are set,
the QoS control word for the QoS subtype, and the remaining bytes as the
uninterpreted child payload. -/
def parseData (st : Nat) (c : CommonHeader) (buf : List Nat) : Option Frame :=
  match rdMac buf with
  | some (a2, r1) =>
    match rdMac r1 with
    | some (a3, r2) =>
      match rdU16 r2 with
      | some (sc, r3) =>
        let e : ExtHeader := ⟨a2, a3, ⟨sc % 16, sc / 16⟩⟩
        match (if c.flags.to_ds && c.flags.from_ds then
                 match rdMac r3 with
                 | some (a4, r4) => some (some a4, r4)
                 | none => none
               else some (none, r3) : Option (Option MacAddr × List Nat)) with
        | some (a4, r4) =>
          if st = 0 then some (Frame.dataFrame c e a4 r4)
          else if st = 8 then
            match rdU16 r4 with
            | some (qc, r5) => some (Frame.qosData c e a4 qc r5)
            | none => none
          else none
        | none => none
      | none => none
    | none => none
  | none => none

/-- Parses a control frame body on the control subtype (values from enum
ControlSubtypes of dot11.h); control frames reject trailing bytes. -/
def parseCtrl (st : Nat) (c : CommonHeader) (buf : List Nat) : Option Frame :=
  if st = 12 then (if buf = [] then some (Frame.cts c) else none)
  else if st = 13 then (if buf = [] then some (Frame.ack c) else none)
  else
    match rdMac buf with
    | some (ta, r1) =>
      if st = 10 then (if r1 = [] then some (Frame.psPoll c ta) else none)
      else if st = 11 then (if r1 = [] then some (Frame.rts c ta) else none)
      else if st = 14 then (if r1 = [] then some (Frame.cfEnd c ta) else none)
      else if st = 15 then (if r1 = [] then some (Frame.cfEndAck c ta) else none)
      else if st = 8 then
        match rdU16 r1 with
        | some (bar, r2) =>
          match rdU16 r2 with
          | some (ssc, r3) =>
            if r3 = [] then some (Frame.blockAckReq c ta bar ssc) else none
          | none => none
        | none => none
      else if st = 9 then
        match rdU16 r1 with
        | some (bar, r2) =>
          match rdU16 r2 with
          | some (ssc, r3) =>
            match rdBitmap r3 with
            | some (bm, r4) =>
              if r4 = [] then some (Frame.blockAck c ta bar ssc bm) else none
            | none => none
          | none => none
        | none => none
      else none
    | none => none

/-- Dispatches on the frame-control type field (enum Types of dot11.h). -/
def parseTyped (typ st : Nat) (c : CommonHeader) (r : List Nat) : Option Frame :=
  if typ = 0 then parseMgmt st c r
  else if typ = 1 then parseCtrl st c r
  else if typ = 2 then parseData st c r
  else none

/-- Modelled from the spec: the parse entry point (the buffer constructors
of the frame classes, defined in the absent implementation file). Decodes
the frame-control word, reads duration/id and addr1, and dispatches on the
type and subtype to the variant parser. -/
def parse (buf : List Nat) : Option Frame :=
  match buf with
  | b0 :: b1 :: rest =>
    match rdU16 rest with
    | some (dur, r1) =>
      match rdMac r1 with
      | some (a1, r2) =>
        parseTyped (b0 / 4 % 4) (b0 / 16) ⟨b0 % 4, Flags.ofByte b1, dur, a1⟩ r2
      | none => none
    | none => none
  | _ => none

/-! ## Legal field assignments -/

/-- Legality of the common header: protocol version fits in two bits,
duration/id in sixteen, and addr1 holds bytes. -/
def legalCommon (c : CommonHeader) : Bool :=
  decide (c.protocol < 4) && decide (c.duration_id < 65536) && legalMac c.addr1

/-- Legality of a sequence-control value: four-bit fragment number,
twelve-bit sequence number. -/
def legalSeqControl (s : SeqControl) : Bool :=
  decide (s.frag < 16) && decide (s.seq < 4096)

/-- Legality of an extended header. -/
def legalExt (e : ExtHeader) : Bool :=
  legalMac e.addr2 && legalMac e.addr3 && legalSeqControl e.sc

/-- Legality of the optional addr4 of a data frame: stored exactly when
both DS flags are set, and holding bytes when stored. -/
def legalAddr4 (fl : Flags) (a4 : Option MacAddr) : Bool :=
  (a4.isSome == (fl.to_ds && fl.from_ds)) &&
  (match a4 with
   | some m => legalMac m
   | none => true)

/-- Legality of a block-ack bitmap: eight byte values. -/
def legalBitmap (b : Bitmap8) : Bool :=
  decide (b.b0 < 256) && decide (b.b1 < 256) && decide (b.b2 < 256) &&
  decide (b.b3 < 256) && decide (b.b4 < 256) && decide (b.b5 < 256) &&
  decide (b.b6 < 256) && decide (b.b7 < 256)

/-- Legal field assignment for a frame: every numeric field fits its wire
field, addresses and payloads hold bytes, and addr4 of a data frame is
present exactly when both DS flags are set. -/
def legalFrame : Frame → Bool
  | Frame.assocReq c e cap li os =>
      legalCommon c && legalExt e && decide (cap < 65536) &&
      decide (li < 65536) && legalOptions os
  | Frame.assocResp c e cap st aid os =>
      legalCommon c && legalExt e && decide (cap < 65536) &&
      decide (st < 65536) && decide (aid < 65536) && legalOptions os
  | Frame.reassocReq c e cap li ap os =>
      legalCommon c && legalExt e && decide (cap < 65536) &&
      decide (li < 65536) && legalMac ap && legalOptions os
  | Frame.reassocResp c e cap st aid os =>
      legalCommon c && legalExt e && decide (cap < 65536) &&
      decide (st < 65536) && decide (aid < 65536) && legalOptions os
  | Frame.probeReq c e os => legalCommon c && legalExt e && legalOptions os
  | Frame.probeResp c e ts iv cap os =>
      legalCommon c && legalExt e && decide (ts < 18446744073709551616) &&
      decide (iv < 65536) && decide (cap < 65536) && legalOptions os
  | Frame.beacon c e ts iv cap os =>
      legalCommon c && legalExt e && decide (ts < 18446744073709551616) &&
      decide (iv < 65536) && decide (cap < 65536) && legalOptions os
  | Frame.disassoc c e rc os =>
      legalCommon c && legalExt e && decide (rc < 65536) && legalOptions os
  | Frame.auth c e alg sq st os =>
      legalCommon c && legalExt e && decide (alg < 65536) &&
      decide (sq < 65536) && decide (st < 65536) && legalOptions os
  | Frame.deauth c e rc os =>
      legalCommon c && legalExt e && decide (rc < 65536) && legalOptions os
  | Frame.dataFrame c e a4 payload =>
      legalCommon c && legalExt e && legalAddr4 c.flags a4 &&
      payload.all (fun b => decide (b < 256))
  | Frame.qosData c e a4 qc payload =>
      legalCommon c && legalExt e && legalAddr4 c.flags a4 &&
      decide (qc < 65536) && payload.all (fun b => decide (b < 256))
  | Frame.blockAckReq c ta bar ssc =>
      legalCommon c && legalMac ta && decide (bar < 65536) && decide (ssc < 65536)
  | Frame.blockAck c ta bar ssc bm =>
      legalCommon c && legalMac ta && decide (bar < 65536) &&
      decide (ssc < 65536) && legalBitmap bm
  | Frame.psPoll c ta => legalCommon c && legalMac ta
  | Frame.rts c ta => legalCommon c && legalMac ta
  | Frame.cts c => legalCommon c
  | Frame.ack c => legalCommon c
  | Frame.cfEnd c ta => legalCommon c && legalMac ta
  | Frame.cfEndAck c ta => legalCommon c && legalMac ta

/-! ## Round-trip staging lemmas -/

theorem parse_wrCommon (c : CommonHeader) (t s : Nat) (hp : c.protocol < 4)
    (ht : t < 4) (hs16 : s < 16) (hd : c.duration_id < 65536) (tail : List Nat) :
    parse (wrCommon c t s ++ tail) = parseTyped t s c tail := by
  obtain ⟨p, fl, d, a⟩ := c
  simp only at hp hd
  have h1 : (p + 4 * t + 16 * s) / 4 % 4 = t := by omega
  have h2 : (p + 4 * t + 16 * s) / 16 = s := by omega
  have h3 : (p + 4 * t + 16 * s) % 4 = p := by omega
  simp only [wrCommon, List.cons_append, List.append_assoc, parse,
    rdU16_wr d hd, rdMac_wr, Flags.ofByte_toByte, h1, h2, h3]

theorem parseMgmt_wrExt (st : Nat) (c : CommonHeader) (e : ExtHeader)
    (he : legalExt e = true) (tail : List Nat) :
    parseMgmt st c (wrExt e ++ tail) = parseMgmtBody st c e tail := by
  obtain ⟨a2, a3, f, s⟩ := e
  simp only [legalExt, legalSeqControl, Bool.and_eq_true, decide_eq_true_eq] at he
  have h1 : (f + 16 * s) % 16 = f := by omega
  have h2 : (f + 16 * s) / 16 = s := by omega
  simp only [wrExt, List.append_assoc, parseMgmt, rdMac_wr,
    rdU16_wr (f + 16 * s) (by omega : f + 16 * s < 65536), h1, h2]

theorem parseData_wrExt (st : Nat) (c : CommonHeader) (e : ExtHeader)
    (he : legalExt e = true) (a4 : Option MacAddr)
    (ha : legalAddr4 c.flags a4 = true) (tail : List Nat) :
    parseData st c (wrExt e ++ (wrAddr4 c.flags a4 ++ tail)) =
      (if st = 0 then some (Frame.dataFrame c e a4 tail)
       else if st = 8 then
         match rdU16 tail with
         | some (qc, r5) => some (Frame.qosData c e a4 qc r5)
         | none => none
       else none) := by
  obtain ⟨a2, a3, f, s⟩ := e
  simp only [legalExt, legalSeqControl, Bool.and_eq_true, decide_eq_true_eq] at he
  have h1 : (f + 16 * s) % 16 = f := by omega
  have h2 : (f + 16 * s) / 16 = s := by omega
  simp only [legalAddr4, Bool.and_eq_true, beq_iff_eq] at ha
  cases hds : (c.flags.to_ds && c.flags.from_ds) with
  | true =>
    rw [hds] at ha
    match a4, ha with
    | some m, _ =>
      simp only [wrExt, wrAddr4, hds, if_pos rfl, if_true, Option.getD_some,
        List.append_assoc, parseData, rdMac_wr,
        rdU16_wr (f + 16 * s) (by omega : f + 16 * s < 65536), h1, h2]
  | false =>
    rw [hds] at ha
    match a4, ha with
    | none, _ =>
      simp only [wrExt, wrAddr4, hds, Bool.false_eq_true, if_false,
        List.append_assoc, List.nil_append, parseData, rdMac_wr,
        rdU16_wr (f + 16 * s) (by omega : f + 16 * s < 65536), h1, h2]

theorem rdU16_wr_nil (x : Nat) (h : x < 65536) : rdU16 (wrU16 x) = some (x, []) := by
  have := rdU16_wr x h []
  rwa [List.append_nil] at this

theorem rdMac_wr_nil (m : MacAddr) : rdMac (wrMac m) = some (m, []) := rfl

theorem rdBitmap_wr_nil (b : Bitmap8) : rdBitmap (wrBitmap b) = some (b, []) := rfl

theorem parse_wrCommon_nil (c : CommonHeader) (t s : Nat) (hp : c.protocol < 4)
    (ht : t < 4) (hs : s < 16) (hd : c.duration_id < 65536) :
    parse (wrCommon c t s) = parseTyped t s c [] := by
  have := parse_wrCommon c t s hp ht hs hd []
  rwa [List.append_nil] at this

theorem legalCommon_protocol {c : CommonHeader} (hc : legalCommon c = true) :
    c.protocol < 4 := by
  simp only [legalCommon, Bool.and_eq_true, decide_eq_true_eq] at hc
  exact hc.1.1

theorem legalCommon_duration {c : CommonHeader} (hc : legalCommon c = true) :
    c.duration_id < 65536 := by
  simp only [legalCommon, Bool.and_eq_true, decide_eq_true_eq] at hc
  exact hc.1.2

/-! ## Round-trip of serialization and parsing -/

/-- C1: for every frame variant and every legal field assignment, parsing
the bytes produced by serializing the frame yields a frame equal to the
original in all fields, options and child payload. -/
theorem parse_serialize (v : Frame) (h : legalFrame v = true) :
    parse (serialize v) = some v := by
  cases v with
  | assocReq c e cap li os =>
    simp only [legalFrame, Bool.and_eq_true, decide_eq_true_eq] at h
    obtain ⟨⟨⟨⟨hc, he⟩, hcap⟩, hli⟩, _⟩ := h
    simp [serialize, List.append_assoc,
      parse_wrCommon c 0 0 (legalCommon_protocol hc) (by omega) (by omega)
        (legalCommon_duration hc),
      parseTyped, parseMgmt_wrExt 0 c e he, parseMgmtBody, parseAssocReq,
      rdU16_wr cap hcap, rdU16_wr li hli, rdOptions_wr]
  | assocResp c e cap st aid os =>
    simp only [legalFrame, Bool.and_eq_true, decide_eq_true_eq] at h
    obtain ⟨⟨⟨⟨⟨hc, he⟩, hcap⟩, hst⟩, haid⟩, _⟩ := h
    simp [serialize, List.append_assoc,
      parse_wrCommon c 0 1 (legalCommon_protocol hc) (by omega) (by omega)
        (legalCommon_duration hc),
      parseTyped, parseMgmt_wrExt 1 c e he, parseMgmtBody, parseAssocResp,
      rdU16_wr cap hcap, rdU16_wr st hst, rdU16_wr aid haid, rdOptions_wr]
  | reassocReq c e cap li ap os =>
    simp only [legalFrame, Bool.and_eq_true, decide_eq_true_eq] at h
    obtain ⟨⟨⟨⟨⟨hc, he⟩, hcap⟩, hli⟩, _⟩, _⟩ := h
    simp [serialize, List.append_assoc,
      parse_wrCommon c 0 2 (legalCommon_protocol hc) (by omega) (by omega)
        (legalCommon_duration hc),
      parseTyped, parseMgmt_wrExt 2 c e he, parseMgmtBody, parseReassocReq,
      rdU16_wr cap hcap, rdU16_wr li hli, rdMac_wr, rdOptions_wr]
  | reassocResp c e cap st aid os =>
    simp only [legalFrame, Bool.and_eq_true, decide_eq_true_eq] at h
    obtain ⟨⟨⟨⟨⟨hc, he⟩, hcap⟩, hst⟩, haid⟩, _⟩ := h
    simp [serialize, List.append_assoc,
      parse_wrCommon c 0 3 (legalCommon_protocol hc) (by omega) (by omega)
        (legalCommon_duration hc),
      parseTyped, parseMgmt_wrExt 3 c e he, parseMgmtBody, parseReassocResp,
      rdU16_wr cap hcap, rdU16_wr st hst, rdU16_wr aid haid, rdOptions_wr]
  | probeReq c e os =>
    simp only [legalFrame, Bool.and_eq_true, decide_eq_true_eq] at h
    obtain ⟨⟨hc, he⟩, _⟩ := h
    simp [serialize, List.append_assoc,
      parse_wrCommon c 0 4 (legalCommon_protocol hc) (by omega) (by omega)
        (legalCommon_duration hc),
      parseTyped, parseMgmt_wrExt 4 c e he, parseMgmtBody, parseProbeReq,
      rdOptions_wr]
  | probeResp c e ts iv cap os =>
    simp only [legalFrame, Bool.and_eq_true, decide_eq_true_eq] at h
    obtain ⟨⟨⟨⟨⟨hc, he⟩, hts⟩, hiv⟩, hcap⟩, _⟩ := h
    simp [serialize, List.append_assoc,
      parse_wrCommon c 0 5 (legalCommon_protocol hc) (by omega) (by omega)
        (legalCommon_duration hc),
      parseTyped, parseMgmt_wrExt 5 c e he, parseMgmtBody, parseProbeResp,
      rdU64_wr ts hts, rdU16_wr iv hiv, rdU16_wr cap hcap, rdOptions_wr]
  | beacon c e ts iv cap os =>
    simp only [legalFrame, Bool.and_eq_true, decide_eq_true_eq] at h
    obtain ⟨⟨⟨⟨⟨hc, he⟩, hts⟩, hiv⟩, hcap⟩, _⟩ := h
    simp [serialize, List.append_assoc,
      parse_wrCommon c 0 8 (legalCommon_protocol hc) (by omega) (by omega)
        (legalCommon_duration hc),
      parseTyped, parseMgmt_wrExt 8 c e he, parseMgmtBody, parseBeacon,
      rdU64_wr ts hts, rdU16_wr iv hiv, rdU16_wr cap hcap, rdOptions_wr]
  | disassoc c e rc os =>
    simp only [legalFrame, Bool.and_eq_true, decide_eq_true_eq] at h
    obtain ⟨⟨⟨hc, he⟩, hrc⟩, _⟩ := h
    simp [serialize, List.append_assoc,
      parse_wrCommon c 0 10 (legalCommon_protocol hc) (by omega) (by omega)
        (legalCommon_duration hc),
      parseTyped, parseMgmt_wrExt 10 c e he, parseMgmtBody, parseDisassoc,
      rdU16_wr rc hrc, rdOptions_wr]
  | auth c e alg sq st os =>
    simp only [legalFrame, Bool.and_eq_true, decide_eq_true_eq] at h
    obtain ⟨⟨⟨⟨⟨hc, he⟩, halg⟩, hsq⟩, hst⟩, _⟩ := h
    simp [serialize, List.append_assoc,
      parse_wrCommon c 0 11 (legalCommon_protocol hc) (by omega) (by omega)
        (legalCommon_duration hc),
      parseTyped, parseMgmt_wrExt 11 c e he, parseMgmtBody, parseAuth,
      rdU16_wr alg halg, rdU16_wr sq hsq, rdU16_wr st hst, rdOptions_wr]
  | deauth c e rc os =>
    simp only [legalFrame, Bool.and_eq_true, decide_eq_true_eq] at h
    obtain ⟨⟨⟨hc, he⟩, hrc⟩, _⟩ := h
    simp [serialize, List.append_assoc,
      parse_wrCommon c 0 12 (legalCommon_protocol hc) (by omega) (by omega)
        (legalCommon_duration hc),
      parseTyped, parseMgmt_wrExt 12 c e he, parseMgmtBody, parseDeauth,
      rdU16_wr rc hrc, rdOptions_wr]
  | dataFrame c e a4 payload =>
    simp only [legalFrame, Bool.and_eq_true, decide_eq_true_eq] at h
    obtain ⟨⟨⟨hc, he⟩, ha4⟩, _⟩ := h
    simp [serialize, List.append_assoc,
      parse_wrCommon c 2 0 (legalCommon_protocol hc) (by omega) (by omega)
        (legalCommon_duration hc),
      parseTyped, parseData_wrExt 0 c e he a4 ha4]
  | qosData c e a4 qc payload =>
    simp only [legalFrame, Bool.and_eq_true, decide_eq_true_eq] at h
    obtain ⟨⟨⟨⟨hc, he⟩, ha4⟩, hqc⟩, _⟩ := h
    simp [serialize, List.append_assoc,
      parse_wrCommon c 2 8 (legalCommon_protocol hc) (by omega) (by omega)
        (legalCommon_duration hc),
      parseTyped, parseData_wrExt 8 c e he a4 ha4, rdU16_wr qc hqc]
  | blockAckReq c ta bar ssc =>
    simp only [legalFrame, Bool.and_eq_true, decide_eq_true_eq] at h
    obtain ⟨⟨⟨hc, _⟩, hbar⟩, hssc⟩ := h
    simp [serialize, List.append_assoc,
      parse_wrCommon c 1 8 (legalCommon_protocol hc) (by omega) (by omega)
        (legalCommon_duration hc),
      parseTyped, parseCtrl, rdMac_wr, rdU16_wr bar hbar, rdU16_wr_nil ssc hssc]
  | blockAck c ta bar ssc bm =>
    simp only [legalFrame, Bool.and_eq_true, decide_eq_true_eq] at h
    obtain ⟨⟨⟨⟨hc, _⟩, hbar⟩, hssc⟩, _⟩ := h
    simp [serialize, List.append_assoc,
      parse_wrCommon c 1 9 (legalCommon_protocol hc) (by omega) (by omega)
        (legalCommon_duration hc),
      parseTyped, parseCtrl, rdMac_wr, rdU16_wr bar hbar, rdU16_wr ssc hssc,
      rdBitmap_wr_nil]
  | psPoll c ta =>
    simp only [legalFrame, Bool.and_eq_true, decide_eq_true_eq] at h
    obtain ⟨hc, _⟩ := h
    simp [serialize, List.append_assoc,
      parse_wrCommon c 1 10 (legalCommon_protocol hc) (by omega) (by omega)
        (legalCommon_duration hc),
      parseTyped, parseCtrl, rdMac_wr_nil]
  | rts c ta =>
    simp only [legalFrame, Bool.and_eq_true, decide_eq_true_eq] at h
    obtain ⟨hc, _⟩ := h
    simp [serialize, List.append_assoc,
      parse_wrCommon c 1 11 (legalCommon_protocol hc) (by omega) (by omega)
        (legalCommon_duration hc),
      parseTyped, parseCtrl, rdMac_wr_nil]
  | cts c =>
    simp only [legalFrame] at h
    simp [serialize,
      parse_wrCommon_nil c 1 12 (legalCommon_protocol h) (by omega) (by omega)
        (legalCommon_duration h),
      parseTyped, parseCtrl]
  | ack c =>
    simp only [legalFrame] at h
    simp [serialize,
      parse_wrCommon_nil c 1 13 (legalCommon_protocol h) (by omega) (by omega)
        (legalCommon_duration h),
      parseTyped, parseCtrl]
  | cfEnd c ta =>
    simp only [legalFrame, Bool.and_eq_true, decide_eq_true_eq] at h
    obtain ⟨hc, _⟩ := h
    simp [serialize, List.append_assoc,
      parse_wrCommon c 1 14 (legalCommon_protocol hc) (by omega) (by omega)
        (legalCommon_duration hc),
      parseTyped, parseCtrl, rdMac_wr_nil]
  | cfEndAck c ta =>
    simp only [legalFrame, Bool.and_eq_true, decide_eq_true_eq] at h
    obtain ⟨hc, _⟩ := h
    simp [serialize, List.append_assoc,
      parse_wrCommon c 1 15 (legalCommon_protocol hc) (by omega) (by omega)
        (legalCommon_duration hc),
      parseTyped, parseCtrl, rdMac_wr_nil]

/-- Sample legal beacon frame (broadcast addr1, an SSID option) used as the
concrete round-trip witness input. -/
def sampleFrame : Frame :=
  Frame.beacon
    ⟨0, ⟨false, false, false, false, false, false, false, false⟩, 0,
     ⟨255, 255, 255, 255, 255, 255⟩⟩
    ⟨⟨0, 1, 2, 3, 4, 5⟩, ⟨0, 1, 2, 3, 4, 5⟩, ⟨0, 0⟩⟩
    0 100 0
    [⟨0, [116, 101, 115, 116]⟩]

theorem parse_serialize_witness :
    legalFrame sampleFrame = true ∧
      parse (serialize sampleFrame) = some sampleFrame :=
  ⟨by decide, parse_serialize sampleFrame (by decide)⟩

/-! ## Header size and size consistency -/

/-- Modelled from the spec: header_size of each frame class (declared in
dot11.h, defined in the absent implementation file): total bytes of the
MAC header, extended header, fixed parameters and all option bytes; the
child PDU is not counted. The constants follow the packed struct sizes of
dot11.h: ieee80211_header is 10 bytes, ExtendedHeader 14, addr arrays 6,
the BlockAck bitmap 8. -/
def header_size : Frame → Nat
  | Frame.assocReq _ _ _ _ os => 28 + options_size os
  | Frame.assocResp _ _ _ _ _ os => 30 + options_size os
  | Frame.reassocReq _ _ _ _ _ os => 34 + options_size os
  | Frame.reassocResp _ _ _ _ _ os => 30 + options_size os
  | Frame.probeReq _ _ os => 24 + options_size os
  | Frame.probeResp _ _ _ _ _ os => 36 + options_size os
  | Frame.beacon _ _ _ _ _ os => 36 + options_size os
  | Frame.disassoc _ _ _ os => 26 + options_size os
  | Frame.auth _ _ _ _ _ os => 30 + options_size os
  | Frame.deauth _ _ _ os => 26 + options_size os
  | Frame.dataFrame c _ _ _ =>
      24 + (if c.flags.to_ds && c.flags.from_ds then 6 else 0)
  | Frame.qosData c _ _ _ _ =>
      26 + (if c.flags.to_ds && c.flags.from_ds then 6 else 0)
  | Frame.blockAckReq _ _ _ _ => 20
  | Frame.blockAck _ _ _ _ _ => 28
  | Frame.psPoll _ _ => 16
  | Frame.rts _ _ => 16
  | Frame.cts _ => 10
  | Frame.ack _ => 10
  | Frame.cfEnd _ _ => 16
  | Frame.cfEndAck _ _ => 16

/-- Size of the child PDU of a frame: the payload length of a data frame,
zero for frames without a child. -/
def child_size : Frame → Nat
  | Frame.dataFrame _ _ _ p => p.length
  | Frame.qosData _ _ _ _ p => p.length
  | _ => 0

/-- C2: the length of the serialization of any frame equals its
header_size plus the size of its child PDU; header_size counts the MAC
header, extended header, fixed parameters and option bytes and never the
child payload. -/
theorem serialize_length (v : Frame) :
    (serialize v).length = header_size v + child_size v := by
  cases v with
  | dataFrame c e a4 p =>
    simp only [serialize, header_size, child_size, wrCommon, wrExt, wrAddr4,
      wrMac, wrU16, List.length_append, List.length_cons, List.length_nil]
    split <;> simp [wrMac]
  | qosData c e a4 qc p =>
    simp only [serialize, header_size, child_size, wrCommon, wrExt, wrAddr4,
      wrMac, wrU16, List.length_append, List.length_cons, List.length_nil]
    split <;> simp [wrMac]
  | _ =>
    simp [serialize, header_size, child_size, wrCommon, wrExt, wrAddr4, wrMac,
      wrU16, wrU64, wrBitmap, wrOptions_length, List.length_append] <;> omega

/-! ## DS-flag frame sizes (inline bodies in dot11.h)

The two inline helpers below transcribe, with C operator precedence, the
expressions at lines 1274 and 3016 of dot11.h, where the conditional
operator binds more weakly than the addition: the written expression
sizeof(ext) + (from_ds && to_ds) ? sizeof(addr4) : 0 groups as
(sizeof(ext) + (from_ds && to_ds)) ? sizeof(addr4) : 0. sizeof of the
packed ExtendedHeader is 14 and sizeof of the addr4 array is 6. -/

/-- Dot11Data::data_frame_size, transcribed from the inline body with the
C grouping of the conditional expression. -/
def Dot11Data.data_frame_size (from_ds to_ds : Bool) : Nat :=
  if 14 + (if from_ds && to_ds then 1 else 0) ≠ 0 then 6 else 0

/-- Dot11ManagementFrame::management_frame_size, transcribed from the
inline body with the C grouping of the conditional expression. -/
def Dot11ManagementFrame.management_frame_size (from_ds to_ds : Bool) : Nat :=
  if 14 + (if from_ds && to_ds then 1 else 0) ≠ 0 then 6 else 0

/-- C3: the code evaluated at the failing inputs. The inline
data_frame_size and management_frame_size return 6 for every combination
of the DS flags (the condition 14 + flag is never zero), so setting both
DS flags does not change the computed size at all: the claimed 6-byte
increase from addr4, and the claimed flag-independence of the rest of the
header, both fail on the code as written. -/
theorem data_frame_size_constant :
    (∀ f t, Dot11Data.data_frame_size f t = 6) ∧
    (∀ f t, Dot11ManagementFrame.management_frame_size f t = 6) ∧
    Dot11Data.data_frame_size true true - Dot11Data.data_frame_size false false = 0 := by
  refine ⟨?_, ?_, rfl⟩ <;> intro f t <;> cases f <;> cases t <;> rfl

/-! ## Option store: append semantics and lookup order -/

theorem wrOptions_eq_join (os : List Dot11Option) :
    wrOptions os = (os.map wrOption).flatten := by
  induction os <;> simp [wrOptions, *]

/-- Applies a sequence of add_tagged_option calls in order, starting from
the given store: the triple holds the option number, the length argument
and the value bytes of each call. -/
def apply_adds (adds : List (Nat × Nat × List Nat)) (opts : List Dot11Option) :
    List Dot11Option :=
  match adds with
  | [] => opts
  | (t, l, v) :: rest => apply_adds rest (Dot11.add_tagged_option opts t l v)

/-- Option value produced by one add_tagged_option call: the option number
and the copied bytes (len reduced mod 256 as by the uint8_t parameter). -/
def mkOption (a : Nat × Nat × List Nat) : Dot11Option :=
  ⟨a.1, a.2.2.take (a.2.1 % 256)⟩

theorem apply_adds_eq (adds : List (Nat × Nat × List Nat))
    (opts : List Dot11Option) :
    apply_adds adds opts = opts ++ adds.map mkOption := by
  induction adds generalizing opts with
  | nil => simp [apply_adds]
  | cons a rest ih =>
    obtain ⟨t, l, v⟩ := a
    simp [apply_adds, Dot11.add_tagged_option, ih, mkOption]

theorem search_option_eq (opts : List Dot11Option) (t : Nat) :
    Dot11.search_option opts t =
      (opts.filter (fun o => o.option == t)).head? := by
  induction opts with
  | nil => rfl
  | cons o rest ih =>
    by_cases h : o.option = t <;>
      simp [Dot11.search_option, List.filter_cons, h, ih]

/-- C5: a sequence of adds yields the store holding exactly the added
options in insertion order (duplicate option numbers are all kept), the
serialized output lists the wire form of each option in that same order,
and lookup returns the first option with the requested number in
insertion order, or none exactly when no stored option carries it. -/
theorem option_store_order (adds : List (Nat × Nat × List Nat)) (t : Nat) :
    apply_adds adds [] = adds.map mkOption ∧
    wrOptions (apply_adds adds []) = ((adds.map mkOption).map wrOption).flatten ∧
    (apply_adds adds []).length = adds.length ∧
    Dot11.search_option (apply_adds adds []) t =
      ((apply_adds adds []).filter (fun o => o.option == t)).head? ∧
    (Dot11.search_option (apply_adds adds []) t = none ↔
      ∀ o ∈ apply_adds adds [], o.option ≠ t) := by
  refine ⟨by simp [apply_adds_eq], by simp [apply_adds_eq, wrOptions_eq_join],
    by simp [apply_adds_eq], search_option_eq _ t, ?_⟩
  rw [search_option_eq]
  simp [List.head?_eq_none_iff, List.filter_eq_nil_iff]

/-! ## Option length boundary (Dot11::add_tagged_option interface) -/

/-- C4 counterexample: a call that hands add_tagged_option a 256-byte
value (length argument 256, reduced mod 256 to 0 by the uint8_t
parameter) appends an option to the store and signals no error, rather
than failing with OptionTooLong and leaving the store unchanged; no
OptionTooLong error exists in the interface, whose return type is void. -/
theorem add_tagged_option_256_appends :
    Dot11.add_tagged_option [] 0 256 (List.replicate 256 1) = [⟨0, []⟩] ∧
    (Dot11.add_tagged_option [] 0 256 (List.replicate 256 1)).length = 1 := by
  constructor <;> rfl

/-- C4 amended: appending a value of at most 255 bytes succeeds and
appends the option, with the full value copied; values longer than 255
bytes cannot be expressed through the interface, whose length parameter
is a uint8_t, and no OptionTooLong error exists. -/
theorem add_tagged_option_le_255 (opts : List Dot11Option) (opt len : Nat)
    (val : List Nat) (hlen : len ≤ 255) (hval : val.length = len) :
    Dot11.add_tagged_option opts opt len val = opts ++ [⟨opt, val⟩] := by
  subst hval
  simp [Dot11.add_tagged_option,
    Nat.mod_eq_of_lt (by omega : val.length < 256)]

theorem add_tagged_option_le_255_witness :
    ((255 : Nat) ≤ 255 ∧ (List.replicate 255 7).length = 255) ∧
    Dot11.add_tagged_option [] 5 255 (List.replicate (255 : Nat) 7) =
      [] ++ [⟨5, List.replicate 255 7⟩] :=
  ⟨⟨by decide, List.length_replicate 255 7⟩,
   add_tagged_option_le_255 [] 5 255 (List.replicate 255 7) (by decide)
     (List.length_replicate 255 7)⟩

/-! ## RSN information codec -/

/-- RSN information structure, mirroring class RSNInformation of dot11.h:
version, capabilities, the group suite and the pairwise and akm suite
lists. Suite values are the host-order uint32 enum constants whose
little-endian bytes are the wire-order OUI plus suite type. -/
structure RSNInformation where
  version : Nat
  capabilities : Nat
  group_suite : Nat
  pairwise_cyphers : List Nat
  akm_cyphers : List Nat
deriving DecidableEq, Repr

/-- CCMP constant of enum RSNInformation::CypherSuites. -/
def RSNInformation.CCMP : Nat := 0x04ac0f00

/-- TKIP constant of enum RSNInformation::CypherSuites. -/
def RSNInformation.TKIP : Nat := 0x02ac0f00

/-- PSK constant of enum RSNInformation::AKMSuites. -/
def RSNInformation.PSK : Nat := 0x02ac0f00

/-- PMKSA constant of enum RSNInformation::AKMSuites. -/
def RSNInformation.PMKSA : Nat := 0x01ac0f00

/-- Modelled from the spec: RSNInformation::wpa2_psk (declared in dot11.h,
defined in the absent implementation file): version 1, group suite CCMP,
pairwise suites [CCMP], akm suites [PSK], capabilities 0. -/
def RSNInformation.wpa2_psk : RSNInformation :=
  ⟨1, 0, RSNInformation.CCMP, [RSNInformation.CCMP], [RSNInformation.PSK]⟩

/-- Modelled from the spec: RSNInformation::serialize (declared in
dot11.h, defined in the absent implementation file): version as uint16
little-endian, the group suite as a uint32, the pairwise count and
suites, the akm count and suites, then the capabilities. -/
def RSNInformation.serialize (r : RSNInformation) : List Nat :=
  wrU16 r.version ++ wrU32 r.group_suite ++
  wrU16 r.pairwise_cyphers.length ++ (r.pairwise_cyphers.map wrU32).flatten ++
  wrU16 r.akm_cyphers.length ++ (r.akm_cyphers.map wrU32).flatten ++
  wrU16 r.capabilities

/-- C6 counterexample: the serialization of wpa2_psk is 20 bytes long, not
22 as the claim counts its own byte list. -/
theorem wpa2_psk_serialize_not_22 :
    (RSNInformation.serialize RSNInformation.wpa2_psk).length = 20 ∧
    ¬((RSNInformation.serialize RSNInformation.wpa2_psk).length = 22) := by
  constructor <;> decide

/-- C6 amended: wpa2_psk has version 1, group suite CCMP, pairwise suite
list [CCMP], akm suite list [PSK], capabilities 0, and serializes to
exactly the 20 bytes 01 00 00 0F AC 04 01 00 00 0F AC 04 01 00 00 0F AC
02 00 00. -/
theorem wpa2_psk_fields_and_bytes :
    RSNInformation.wpa2_psk.version = 1 ∧
    RSNInformation.wpa2_psk.group_suite = RSNInformation.CCMP ∧
    RSNInformation.wpa2_psk.pairwise_cyphers = [RSNInformation.CCMP] ∧
    RSNInformation.wpa2_psk.akm_cyphers = [RSNInformation.PSK] ∧
    RSNInformation.wpa2_psk.capabilities = 0 ∧
    RSNInformation.serialize RSNInformation.wpa2_psk =
      [0x01, 0x00, 0x00, 0x0F, 0xAC, 0x04, 0x01, 0x00, 0x00, 0x0F, 0xAC, 0x04,
       0x01, 0x00, 0x00, 0x0F, 0xAC, 0x02, 0x00, 0x00] := by
  refine ⟨rfl, rfl, rfl, rfl, rfl, by decide⟩

/-! ## Block-ack bitmap size -/

/-- Concrete legal block-ack frame used in the bitmap counterexample. -/
def sampleBlockAck : Frame :=
  Frame.blockAck
    ⟨0, ⟨false, false, false, false, false, false, false, false⟩, 0,
     ⟨10, 11, 12, 13, 14, 15⟩⟩
    ⟨20, 21, 22, 23, 24, 25⟩ 5 100 ⟨1, 2, 3, 4, 5, 6, 7, 8⟩

/-- C7 counterexample: the bitmap member of a block-ack frame (mirroring
uint8_t _bitmap[8] of Dot11BlockAck) serializes to 8 bytes, not 16, and
the sample frame serializes to 28 bytes in total, while a frame carrying
a 16-byte bitmap after bar control and start sequence would serialize to
36. -/
theorem blockAck_bitmap_not_16 :
    (wrBitmap (Bitmap8.mk 1 2 3 4 5 6 7 8)).length = 8 ∧
    ¬((wrBitmap (Bitmap8.mk 1 2 3 4 5 6 7 8)).length = 16) ∧
    (serialize sampleBlockAck).length = 28 ∧
    ¬((serialize sampleBlockAck).length = 36) := by
  refine ⟨rfl, by decide, by decide, by decide⟩

/-- C7 amended: every block-ack frame carries a 64-bit, 8-byte bitmap
after its bar control and start sequence fields, and those 8 bytes are
included in the serialized frame as its final bytes. -/
theorem blockAck_bitmap_8 (c : CommonHeader) (ta : MacAddr) (bar ssc : Nat)
    (bm : Bitmap8) :
    (wrBitmap bm).length = 8 ∧
    serialize (Frame.blockAck c ta bar ssc bm) =
      wrCommon c 1 9 ++ wrMac ta ++ wrU16 bar ++ wrU16 ssc ++ wrBitmap bm ∧
    (serialize (Frame.blockAck c ta bar ssc bm)).length = 28 ∧
    (wrBitmap bm).IsSuffix (serialize (Frame.blockAck c ta bar ssc bm)) := by
  refine ⟨rfl, rfl, ?_, ?_⟩
  · simp [serialize, wrCommon, wrMac, wrU16, wrBitmap]
  · exact ⟨wrCommon c 1 9 ++ wrMac ta ++ wrU16 bar ++ wrU16 ssc, by
      simp [serialize, List.append_assoc]⟩

/-! ## Bar control and start sequence encoding -/

/-- BarControl bitfield of Dot11BlockAckRequest and Dot11BlockAck,
transcribed from the packed struct: reserved (12 bits) declared first, so
it occupies the low twelve bits of the uint16 word; tid (4 bits) occupies
the high four. Assignments truncate to the field width. -/
structure BarControl where
  reserved : Nat
  tid : Nat
deriving DecidableEq, Repr

/-- Packs the BarControl bitfield into its uint16 word. -/
def BarControl.toWord (b : BarControl) : Nat :=
  b.reserved % 4096 + 4096 * (b.tid % 16)

/-- Unpacks a uint16 word into the BarControl bitfield. -/
def BarControl.ofWord (w : Nat) : BarControl := ⟨w % 4096, w / 4096 % 16⟩

/-- StartSequence bitfield of the block-ack classes, transcribed from the
packed struct: frag (4 bits) in the low nibble, seq (12 bits) above it. -/
structure StartSequence where
  frag : Nat
  seq : Nat
deriving DecidableEq, Repr

/-- Packs the StartSequence bitfield into its uint16 word. -/
def StartSequence.toWord (s : StartSequence) : Nat :=
  s.frag % 16 + 16 * (s.seq % 4096)

/-- Modelled from the spec: wire bytes of the packed BarControl struct,
written as its little-endian uint16 word (write_ext_header of the
block-ack classes is defined in the absent implementation file). -/
def wrBarControl (b : BarControl) : List Nat := wrU16 (BarControl.toWord b)

/-- Modelled from the spec: wire bytes of the packed StartSequence
struct, written as its little-endian uint16 word. -/
def wrStartSequence (s : StartSequence) : List Nat :=
  wrU16 (StartSequence.toWord s)

/-- C8 counterexample: with TID 5 the two bar control bytes on the wire
are 00 50 (tid sits in the high four bits of the little-endian word), not
50 00 as claimed. -/
theorem bar_control_tid5_bytes :
    wrBarControl ⟨0, 5⟩ = [0x00, 0x50] ∧
    ¬(wrBarControl ⟨0, 5⟩ = [0x50, 0x00]) := by
  constructor <;> decide

/-- C8 amended: TID 5 encodes the bar control bytes 00 50, and a start
sequence with fragment number 0 and sequence number 0x123 encodes the
bytes 30 12. -/
theorem bar_control_start_sequence_bytes :
    wrBarControl ⟨0, 5⟩ = [0x00, 0x50] ∧
    wrStartSequence ⟨0, 0x123⟩ = [0x30, 0x12] := by
  constructor <;> decide

/-! ## Bar control getter observes only the TID -/

/-- Dot11BlockAckRequest::bar_control getter, transcribed from the inline
body: returns the tid bitfield alone. -/
def Dot11BlockAckRequest.bar_control (b : BarControl) : Nat := b.tid

/-- Dot11BlockAck::bar_control getter, transcribed from the inline body:
returns the tid bitfield alone. -/
def Dot11BlockAck.bar_control (b : BarControl) : Nat := b.tid

/-- C10: the bar_control getters of Dot11BlockAckRequest and
Dot11BlockAck return only the four-bit TID field: on any parsed or stored
sixteen-bit word the result equals the high four bits and is at most 15,
and the twelve reserved bits are not observable through the getter. -/
theorem bar_control_returns_tid :
    (∀ w, Dot11BlockAckRequest.bar_control (BarControl.ofWord w) = w / 4096 % 16) ∧
    (∀ w, Dot11BlockAckRequest.bar_control (BarControl.ofWord w) < 16) ∧
    (∀ w, Dot11BlockAck.bar_control (BarControl.ofWord w) = w / 4096 % 16) ∧
    (∀ w, Dot11BlockAck.bar_control (BarControl.ofWord w) < 16) ∧
    (∀ r1 r2 t, Dot11BlockAckRequest.bar_control ⟨r1, t⟩ =
        Dot11BlockAckRequest.bar_control ⟨r2, t⟩) ∧
    (∀ r1 r2 t, Dot11BlockAck.bar_control ⟨r1, t⟩ =
        Dot11BlockAck.bar_control ⟨r2, t⟩) := by
  refine ⟨fun w => rfl, fun w => ?_, fun w => rfl, fun w => ?_,
    fun r1 r2 t => rfl, fun r1 r2 t => rfl⟩ <;>
    exact Nat.mod_lt _ (by omega)

/-! ## PDU type tags and the matches_flag hierarchy -/

/-- Modelled from the spec: the closed PDU tag enumeration (PDU::PDUType
lives in the absent pdu.h); the constructors are exactly the tags the
frame classes of dot11.h reference. -/
inductive PDUType where
  | DOT11
  | DOT11_MANAGEMENT
  | DOT11_BEACON
  | DOT11_DIASSOC
  | DOT11_ASSOC_REQ
  | DOT11_ASSOC_RESP
  | DOT11_REASSOC_REQ
  | DOT11_AUTH
  | DOT11_DEAUTH
  | DOT11_PROBE_REQ
  | DOT11_PROBE_RESP
  | DOT11_DATA
  | DOT11_QOS_DATA
  | DOT11_CONTROL
  | DOT11_RTS
  | DOT11_PS_POLL
  | DOT11_CF_END
  | DOT11_END_CF_ACK
  | DOT11_ACK
  | DOT11_BLOCK_ACK_REQ
  | DOT11_BLOCK_ACK
deriving DecidableEq, Repr

/-- Dot11::matches_flag, transcribed from the inline body. -/
def Dot11.matches_flag (flag : PDUType) : Bool := flag = PDUType.DOT11

/-- Dot11ManagementFrame::matches_flag, transcribed from the inline body:
own tag or the Dot11 chain. -/
def Dot11ManagementFrame.matches_flag (flag : PDUType) : Bool :=
  flag = PDUType.DOT11_MANAGEMENT || Dot11.matches_flag flag

/-- Dot11Beacon::matches_flag, transcribed from the inline body. -/
def Dot11Beacon.matches_flag (flag : PDUType) : Bool :=
  flag = PDUType.DOT11_BEACON || Dot11ManagementFrame.matches_flag flag

/-- Dot11Disassoc::matches_flag, transcribed from the inline body. -/
def Dot11Disassoc.matches_flag (flag : PDUType) : Bool :=
  flag = PDUType.DOT11_DIASSOC || Dot11ManagementFrame.matches_flag flag

/-- Dot11AssocRequest::matches_flag, transcribed from the inline body. -/
def Dot11AssocRequest.matches_flag (flag : PDUType) : Bool :=
  flag = PDUType.DOT11_ASSOC_REQ || Dot11ManagementFrame.matches_flag flag

/-- Dot11AssocResponse::matches_flag, transcribed from the inline body. -/
def Dot11AssocResponse.matches_flag (flag : PDUType) : Bool :=
  flag = PDUType.DOT11_ASSOC_RESP || Dot11ManagementFrame.matches_flag flag

/-- Dot11ReAssocRequest::matches_flag, transcribed from the inline body. -/
def Dot11ReAssocRequest.matches_flag (flag : PDUType) : Bool :=
  flag = PDUType.DOT11_REASSOC_REQ || Dot11ManagementFrame.matches_flag flag

/-- Dot11ReAssocResponse::matches_flag, transcribed from the inline body
(the class reports the DOT11_ASSOC_RESP tag as its own pdu_type). -/
def Dot11ReAssocResponse.matches_flag (flag : PDUType) : Bool :=
  flag = PDUType.DOT11_ASSOC_RESP || Dot11ManagementFrame.matches_flag flag

/-- Dot11Authentication::matches_flag, transcribed from the inline body. -/
def Dot11Authentication.matches_flag (flag : PDUType) : Bool :=
  flag = PDUType.DOT11_AUTH || Dot11ManagementFrame.matches_flag flag

/-- Dot11Deauthentication::matches_flag, transcribed from the inline body. -/
def Dot11Deauthentication.matches_flag (flag : PDUType) : Bool :=
  flag = PDUType.DOT11_DEAUTH || Dot11ManagementFrame.matches_flag flag

/-- Dot11ProbeRequest::matches_flag, transcribed from the inline body. -/
def Dot11ProbeRequest.matches_flag (flag : PDUType) : Bool :=
  flag = PDUType.DOT11_PROBE_REQ || Dot11ManagementFrame.matches_flag flag

/-- Dot11ProbeResponse::matches_flag, transcribed from the inline body. -/
def Dot11ProbeResponse.matches_flag (flag : PDUType) : Bool :=
  flag = PDUType.DOT11_PROBE_RESP || Dot11ManagementFrame.matches_flag flag

/-- Dot11Data::matches_flag, transcribed from the inline body: own tag or
the Dot11 chain (Dot11Data derives from Dot11 directly). -/
def Dot11Data.matches_flag (flag : PDUType) : Bool :=
  flag = PDUType.DOT11_DATA || Dot11.matches_flag flag

/-- Dot11QoSData::matches_flag, transcribed from the inline body. -/
def Dot11QoSData.matches_flag (flag : PDUType) : Bool :=
  flag = PDUType.DOT11_QOS_DATA || Dot11Data.matches_flag flag

/-- Dot11Control::matches_flag, transcribed from the inline body. -/
def Dot11Control.matches_flag (flag : PDUType) : Bool :=
  flag = PDUType.DOT11_CONTROL || Dot11.matches_flag flag

/-- Dot11RTS::matches_flag, transcribed from the inline body. -/
def Dot11RTS.matches_flag (flag : PDUType) : Bool :=
  flag = PDUType.DOT11_RTS || Dot11Control.matches_flag flag

/-- Dot11PSPoll::matches_flag, transcribed from the inline body. -/
def Dot11PSPoll.matches_flag (flag : PDUType) : Bool :=
  flag = PDUType.DOT11_PS_POLL || Dot11Control.matches_flag flag

/-- Dot11CFEnd::matches_flag, transcribed from the inline body. -/
def Dot11CFEnd.matches_flag (flag : PDUType) : Bool :=
  flag = PDUType.DOT11_CF_END || Dot11Control.matches_flag flag

/-- Dot11EndCFAck::matches_flag, transcribed from the inline body. -/
def Dot11EndCFAck.matches_flag (flag : PDUType) : Bool :=
  flag = PDUType.DOT11_END_CF_ACK || Dot11Control.matches_flag flag

/-- Dot11Ack::matches_flag, transcribed from the inline body. -/
def Dot11Ack.matches_flag (flag : PDUType) : Bool :=
  flag = PDUType.DOT11_ACK || Dot11Control.matches_flag flag

/-- Dot11BlockAckRequest::matches_flag, transcribed from the inline body. -/
def Dot11BlockAckRequest.matches_flag (flag : PDUType) : Bool :=
  flag = PDUType.DOT11_BLOCK_ACK_REQ || Dot11Control.matches_flag flag

/-- Dot11BlockAck::matches_flag, transcribed from the inline body. -/
def Dot11BlockAck.matches_flag (flag : PDUType) : Bool :=
  flag = PDUType.DOT11_BLOCK_ACK || Dot11Control.matches_flag flag

/-- C9: for every class of the hierarchy, matches_flag accepts exactly
the tag the class reports as its own pdu_type together with the tags of
its ancestor classes, and rejects every other tag; a beacon, for
instance, matches DOT11_BEACON, DOT11_MANAGEMENT and DOT11 only. -/
theorem matches_flag_hierarchy (flag : PDUType) :
    (Dot11.matches_flag flag = true ↔ flag ∈ [PDUType.DOT11]) ∧
    (Dot11ManagementFrame.matches_flag flag = true ↔
      flag ∈ [PDUType.DOT11_MANAGEMENT, PDUType.DOT11]) ∧
    (Dot11Beacon.matches_flag flag = true ↔
      flag ∈ [PDUType.DOT11_BEACON, PDUType.DOT11_MANAGEMENT, PDUType.DOT11]) ∧
    (Dot11Disassoc.matches_flag flag = true ↔
      flag ∈ [PDUType.DOT11_DIASSOC, PDUType.DOT11_MANAGEMENT, PDUType.DOT11]) ∧
    (Dot11AssocRequest.matches_flag flag = true ↔
      flag ∈ [PDUType.DOT11_ASSOC_REQ, PDUType.DOT11_MANAGEMENT, PDUType.DOT11]) ∧
    (Dot11AssocResponse.matches_flag flag = true ↔
      flag ∈ [PDUType.DOT11_ASSOC_RESP, PDUType.DOT11_MANAGEMENT, PDUType.DOT11]) ∧
    (Dot11ReAssocRequest.matches_flag flag = true ↔
      flag ∈ [PDUType.DOT11_REASSOC_REQ, PDUType.DOT11_MANAGEMENT, PDUType.DOT11]) ∧
    (Dot11ReAssocResponse.matches_flag flag = true ↔
      flag ∈ [PDUType.DOT11_ASSOC_RESP, PDUType.DOT11_MANAGEMENT, PDUType.DOT11]) ∧
    (Dot11Authentication.matches_flag flag = true ↔
      flag ∈ [PDUType.DOT11_AUTH, PDUType.DOT11_MANAGEMENT, PDUType.DOT11]) ∧
    (Dot11Deauthentication.matches_flag flag = true ↔
      flag ∈ [PDUType.DOT11_DEAUTH, PDUType.DOT11_MANAGEMENT, PDUType.DOT11]) ∧
    (Dot11ProbeRequest.matches_flag flag = true ↔
      flag ∈ [PDUType.DOT11_PROBE_REQ, PDUType.DOT11_MANAGEMENT, PDUType.DOT11]) ∧
    (Dot11ProbeResponse.matches_flag flag = true ↔
      flag ∈ [PDUType.DOT11_PROBE_RESP, PDUType.DOT11_MANAGEMENT, PDUType.DOT11]) ∧
    (Dot11Data.matches_flag flag = true ↔
      flag ∈ [PDUType.DOT11_DATA, PDUType.DOT11]) ∧
    (Dot11QoSData.matches_flag flag = true ↔
      flag ∈ [PDUType.DOT11_QOS_DATA, PDUType.DOT11_DATA, PDUType.DOT11]) ∧
    (Dot11Control.matches_flag flag = true ↔
      flag ∈ [PDUType.DOT11_CONTROL, PDUType.DOT11]) ∧
    (Dot11RTS.matches_flag flag = true ↔
      flag ∈ [PDUType.DOT11_RTS, PDUType.DOT11_CONTROL, PDUType.DOT11]) ∧
    (Dot11PSPoll.matches_flag flag = true ↔
      flag ∈ [PDUType.DOT11_PS_POLL, PDUType.DOT11_CONTROL, PDUType.DOT11]) ∧
    (Dot11CFEnd.matches_flag flag = true ↔
      flag ∈ [PDUType.DOT11_CF_END, PDUType.DOT11_CONTROL, PDUType.DOT11]) ∧
    (Dot11EndCFAck.matches_flag flag = true ↔
      flag ∈ [PDUType.DOT11_END_CF_ACK, PDUType.DOT11_CONTROL, PDUType.DOT11]) ∧
    (Dot11Ack.matches_flag flag = true ↔
      flag ∈ [PDUType.DOT11_ACK, PDUType.DOT11_CONTROL, PDUType.DOT11]) ∧
    (Dot11BlockAckRequest.matches_flag flag = true ↔
      flag ∈ [PDUType.DOT11_BLOCK_ACK_REQ, PDUType.DOT11_CONTROL, PDUType.DOT11]) ∧
    (Dot11BlockAck.matches_flag flag = true ↔
      flag ∈ [PDUType.DOT11_BLOCK_ACK, PDUType.DOT11_CONTROL, PDUType.DOT11]) := by
  cases flag <;> (refine ⟨?_, ?_, ?_, ?_, ?_, ?_, ?_, ?_, ?_, ?_, ?_, ?_, ?_,
    ?_, ?_, ?_, ?_, ?_, ?_, ?_, ?_, ?_⟩ <;> decide)
